import Mathlib

/-!
Shallow embedding of the storage-I/O workload generator `fs_bench.c`
(directory FSCache of the repository) together with proofs of the
behavioural properties stated in the design document.

The program is modelled as a pure function from the command line
(a list of argument strings) and an environment (the outcome of the
system calls open/fstat/pread and of malloc) to an observable outcome:
the exit code, the lines written to stdout and stderr, the sequence of
positioned reads that were issued, and whether the target file was
ever opened.
-/

/-- Parsed configuration, mirroring the local variables of main in
fs_bench.c lines 40-44: file_path, mode, record_size (size_t),
total_bytes (long long), seed (unsigned int, default 12345). -/
structure Config where
  file_path : Option String
  mode : Option String
  record_size : Nat
  total_bytes : Int
  seed : Nat
deriving DecidableEq

/-- Initial values of the configuration variables (fs_bench.c lines 40-44). -/
def initConfig : Config := ⟨none, none, 0, 0, 12345⟩

/-- Diagnostics the program can write to stderr, one constructor per
fprintf(stderr, ...) site in fs_bench.c, carrying the interpolated data. -/
inductive Diag where
  | unknownArg (arg : String)
  | usage
  | missingRequired
  | invalidMode (m : String)
  | openFailed
  | statFailed
  | nonPositiveSize (size : Int)
  | fileTooSmall (size : Int) (total : Int)
  | degenerate (total : Int) (rs : Nat)
  | mallocFailed
  | preadFailed (off : Nat) (size : Nat)
deriving DecidableEq

/-- Observable outcome of one run of the program: process exit code,
stdout and stderr contents, the list of (offset, size) pairs passed to
pread in order, and whether open(2) was ever called on the target file. -/
structure RunOut where
  exit : Nat
  stdout : List Diag
  stderr : List Diag
  reads : List (Nat × Nat)
  openAttempted : Bool
deriving DecidableEq

/-- Environment: outcomes of the system calls the program performs.
openOk and statOk tell whether open(2) and fstat(2) succeed, file_size
is st.st_size, pread gives the return value of pread(2) as a function
of the call index, the offset and the size, and mallocOk tells whether
the buffer allocation succeeds. -/
structure Env where
  openOk : Bool
  statOk : Bool
  file_size : Int
  pread : Nat → Nat → Nat → Int
  mallocOk : Bool

/-- Value of the longest leading run of decimal digits of a character
list, accumulator style; stops at the first non-digit. -/
def digitsVal : List Char → Nat → Nat
  | [], acc => acc
  | c :: cs, acc => if c.isDigit then digitsVal cs (10 * acc + (c.toNat - 48)) else acc

/-- Model of strtoull(s, NULL, 10) from libc as used at fs_bench.c line 53:
value of the longest leading decimal-digit run (0 when there is none),
clamped to ULLONG_MAX on overflow. Leading whitespace and sign characters
are not modelled; the claims only exercise plain digit strings. -/
def strtoull10 (s : String) : Nat := min (digitsVal s.data 0) (2 ^ 64 - 1)

/-- Model of strtoll(s, NULL, 10) from libc as used at fs_bench.c line 55:
like strtoull10 but signed, with an optional leading minus sign and
clamping at the long long range. -/
def strtoll10 (s : String) : Int :=
  match s.data with
  | '-' :: cs => -((min (digitsVal cs 0) (2 ^ 63) : Nat) : Int)
  | cs => ((min (digitsVal cs 0) (2 ^ 63 - 1) : Nat) : Int)

/-- The five command line flags recognised by the argument loop of
fs_bench.c lines 47-63. -/
def recognizedFlags : List String :=
  ["--file", "--mode", "--record-size", "--total-bytes", "--seed"]

/-- The manual argument loop of fs_bench.c lines 47-63. Each recognised
flag that still has a value after it consumes that value and updates the
configuration; any other argument (an unrecognised string in flag
position, or a recognised flag that is the last argument) makes the
program report it and stop, which is modelled by returning it as the
error value. -/
def parseArgs : List String → Config → Except String Config
  | [], cfg => Except.ok cfg
  | [a], _ => Except.error a
  | a :: v :: rest, cfg =>
    if a = "--file" then parseArgs rest { cfg with file_path := some v }
    else if a = "--mode" then parseArgs rest { cfg with mode := some v }
    else if a = "--record-size" then parseArgs rest { cfg with record_size := strtoull10 v }
    else if a = "--total-bytes" then parseArgs rest { cfg with total_bytes := strtoll10 v }
    else if a = "--seed" then parseArgs rest { cfg with seed := strtoull10 v % 2 ^ 32 }
    else Except.error a

/-- op_count of the plan: ops = total_bytes / record_size
(fs_bench.c line 113), on the non-negative values that reach that line. -/
def op_count (tb rs : Nat) : Nat := tb / rs

/-- block_count of the plan: max_offset / record_size + 1, computed
inside the loop at fs_bench.c lines 144 and 148. -/
def block_count (mo rs : Nat) : Nat := mo / rs + 1

/-- Modelled from the spec: the platform pseudo-random source
(srand and rand from libc, which are not part of this repository) as a
simple linear congruential generator, per the design note that the
source is a simple linear pseudo-random generator seeded once at
startup. srand(seed) sets the state to the seed; each rand() call
advances the state with this function and returns the new state, which
lies in [0, 2^31), matching the non-negative range of rand(). -/
def randNext (st : Nat) : Nat := (1103515245 * st + 12345) % 2 ^ 31

/-- State of the pseudo-random source after the per-iteration update:
in random mode rand() is called once (fs_bench.c line 145), in
sequential mode it is not called and the state is unchanged. -/
def nextState (mrand : Bool) (st : Nat) : Nat := if mrand then randNext st else st

/-- Offset chosen by iteration i of the workload loop
(fs_bench.c lines 143-150): block_id * record_size, where block_id is
rand() % block_count in random mode and i % block_count in sequential
mode, with st2 the value returned by the rand() call of this iteration. -/
def loopOffset (mrand : Bool) (rs mo i st2 : Nat) : Nat :=
  (if mrand then st2 % block_count mo rs else i % block_count mo rs) * rs

/-- The workload loop of fs_bench.c lines 139-162, parametrised by the
remaining iteration count (fuel), the current loop index i and the
current pseudo-random state. Returns the list of (offset, size) pairs
issued to pread, in order, and the diagnostic of the failing pread when
one returns a negative value (which aborts the loop). -/
def runLoop (env : Env) (mrand : Bool) (rs mo : Nat) :
    Nat → Nat → Nat → List (Nat × Nat) × Option Diag
  | 0, _, _ => ([], none)
  | fuel + 1, i, st =>
    if env.pread i (loopOffset mrand rs mo i (nextState mrand st)) rs < 0 then
      ([(loopOffset mrand rs mo i (nextState mrand st), rs)],
        some (Diag.preadFailed (loopOffset mrand rs mo i (nextState mrand st)) rs))
    else
      ((loopOffset mrand rs mo i (nextState mrand st), rs) ::
          (runLoop env mrand rs mo fuel (i + 1) (nextState mrand st)).1,
        (runLoop env mrand rs mo fuel (i + 1) (nextState mrand st)).2)

/-- Outcome of the two return paths at the end of main
(fs_bench.c lines 152-167): a failing pread prints its diagnostic and
exits 1, a completed loop exits 0 silently. -/
def finish : List (Nat × Nat) × Option Diag → RunOut
  | (reads, some d) => ⟨1, [], [d], reads, true⟩
  | (reads, none) => ⟨0, [], [], reads, true⟩

/-- Everything main does after argument parsing (fs_bench.c lines 65-167):
the missing-argument check, the mode check, open, fstat, the size checks,
the op-count check, the buffer allocation and the workload loop. -/
def runBench (cfg : Config) (env : Env) : RunOut :=
  if cfg.file_path = none ∨ cfg.mode = none ∨ cfg.record_size = 0 ∨ cfg.total_bytes ≤ 0 then
    ⟨1, [], [Diag.missingRequired, Diag.usage], [], false⟩
  else if ¬(cfg.mode = some "rand" ∨ cfg.mode = some "seq") then
    ⟨1, [], [Diag.invalidMode (cfg.mode.getD ""), Diag.usage], [], false⟩
  else if env.openOk = false then
    ⟨1, [], [Diag.openFailed], [], true⟩
  else if env.statOk = false then
    ⟨1, [], [Diag.statFailed], [], true⟩
  else if env.file_size ≤ 0 then
    ⟨1, [], [Diag.nonPositiveSize env.file_size], [], true⟩
  else if env.file_size < cfg.total_bytes then
    ⟨1, [], [Diag.fileTooSmall env.file_size cfg.total_bytes], [], true⟩
  else if op_count cfg.total_bytes.toNat cfg.record_size = 0 then
    ⟨1, [], [Diag.degenerate cfg.total_bytes cfg.record_size], [], true⟩
  else if env.mallocOk = false then
    ⟨1, [], [Diag.mallocFailed], [], true⟩
  else
    finish (runLoop env (cfg.mode == some "rand") cfg.record_size
      (cfg.total_bytes.toNat - cfg.record_size)
      (op_count cfg.total_bytes.toNat cfg.record_size) 0 cfg.seed)

/-- The whole program: parse the command line (reporting the first bad
argument with the usage text, fs_bench.c lines 58-62), then run the rest
of main. -/
def fs_bench (argv : List String) (env : Env) : RunOut :=
  match parseArgs argv initConfig with
  | Except.error a => ⟨1, [], [Diag.unknownArg a, Diag.usage], [], false⟩
  | Except.ok cfg => runBench cfg env

deriving instance DecidableEq for Except

/-- A command line for a small sequential run: 2 reads of 4 bytes over an
8-byte working set. -/
def argvSeq : List String :=
  ["--file", "f", "--mode", "seq", "--record-size", "4", "--total-bytes", "8"]

/-- The configuration that argvSeq parses to. -/
def cfgSeq : Config := ⟨some "f", some "seq", 4, 8, 12345⟩

/-- A command line for a small random-mode run. -/
def argvRand : List String :=
  ["--file", "f", "--mode", "rand", "--record-size", "4", "--total-bytes", "8", "--seed", "7"]

/-- The configuration that argvRand parses to. -/
def cfgRand : Config := ⟨some "f", some "rand", 4, 8, 7⟩

/-- An environment in which every system call succeeds and the file has
8 bytes. -/
def envOK : Env := ⟨true, true, 8, fun _ _ _ => 4, true⟩

/-- A second all-successful environment with a different file size and
different pread return values. -/
def envOK2 : Env := ⟨true, true, 100, fun _ _ _ => 0, true⟩

example : parseArgs argvSeq initConfig = Except.ok cfgSeq := by decide
example : (fs_bench argvSeq envOK).exit = 0 := by decide
example : (fs_bench argvSeq envOK).reads = [(0, 4), (4, 4)] := by decide
example : (fs_bench argvRand envOK).exit = 0 := by decide

/-! ### Helper lemmas about the workload loop -/

theorem nextState_false (st : Nat) : nextState false st = st := rfl

theorem loopOffset_false (rs mo i st2 : Nat) :
    loopOffset false rs mo i st2 = i % block_count mo rs * rs := rfl

theorem loopOffset_mod (mrand : Bool) (rs mo i st2 : Nat) :
    loopOffset mrand rs mo i st2 % rs = 0 := by
  unfold loopOffset
  exact Nat.mul_mod_left _ _

theorem loopOffset_le (mrand : Bool) (rs mo i st2 : Nat) :
    loopOffset mrand rs mo i st2 ≤ mo / rs * rs := by
  unfold loopOffset block_count
  refine Nat.mul_le_mul_right _ ?h
  split
  · exact Nat.lt_succ_iff.mp (Nat.mod_lt _ (Nat.succ_pos _))
  · exact Nat.lt_succ_iff.mp (Nat.mod_lt _ (Nat.succ_pos _))

theorem runLoop_succ_pos (env : Env) (mrand : Bool) (rs mo fuel i st : Nat)
    (hc : env.pread i (loopOffset mrand rs mo i (nextState mrand st)) rs < 0) :
    runLoop env mrand rs mo (fuel + 1) i st =
      ([(loopOffset mrand rs mo i (nextState mrand st), rs)],
        some (Diag.preadFailed (loopOffset mrand rs mo i (nextState mrand st)) rs)) := by
  simp only [runLoop]
  rw [if_pos hc]

theorem runLoop_succ_neg (env : Env) (mrand : Bool) (rs mo fuel i st : Nat)
    (hc : ¬ env.pread i (loopOffset mrand rs mo i (nextState mrand st)) rs < 0) :
    runLoop env mrand rs mo (fuel + 1) i st =
      ((loopOffset mrand rs mo i (nextState mrand st), rs) ::
          (runLoop env mrand rs mo fuel (i + 1) (nextState mrand st)).1,
        (runLoop env mrand rs mo fuel (i + 1) (nextState mrand st)).2) := by
  simp only [runLoop]
  rw [if_neg hc]

/-- Every read issued by the loop has size rs, a block-aligned offset,
and an offset of at most (mo / rs) * rs. -/
theorem runLoop_mem (env : Env) (mrand : Bool) (rs mo : Nat) :
    ∀ fuel i st : Nat, ∀ p ∈ (runLoop env mrand rs mo fuel i st).1,
      p.2 = rs ∧ p.1 % rs = 0 ∧ p.1 ≤ mo / rs * rs := by
  intro fuel
  induction fuel with
  | zero => intro i st p hp; simp [runLoop] at hp
  | succ n ih =>
    intro i st p hp
    by_cases hc : env.pread i (loopOffset mrand rs mo i (nextState mrand st)) rs < 0
    · rw [runLoop_succ_pos env mrand rs mo n i st hc] at hp
      simp only [List.mem_singleton] at hp
      subst hp
      exact ⟨rfl, loopOffset_mod mrand rs mo i _, loopOffset_le mrand rs mo i _⟩
    · rw [runLoop_succ_neg env mrand rs mo n i st hc] at hp
      simp only [List.mem_cons] at hp
      rcases hp with hp | hp
      · subst hp
        exact ⟨rfl, loopOffset_mod mrand rs mo i _, loopOffset_le mrand rs mo i _⟩
      · exact ih (i + 1) (nextState mrand st) p hp

/-- A loop run that ends without a read failure issues exactly fuel reads. -/
theorem runLoop_none_length (env : Env) (mrand : Bool) (rs mo : Nat) :
    ∀ fuel i st : Nat, (runLoop env mrand rs mo fuel i st).2 = none →
      (runLoop env mrand rs mo fuel i st).1.length = fuel := by
  intro fuel
  induction fuel with
  | zero => intro i st _; simp [runLoop]
  | succ n ih =>
    intro i st h
    by_cases hc : env.pread i (loopOffset mrand rs mo i (nextState mrand st)) rs < 0
    · rw [runLoop_succ_pos env mrand rs mo n i st hc] at h
      simp at h
    · rw [runLoop_succ_neg env mrand rs mo n i st hc] at h ⊢
      simp only [List.length_cons]
      rw [ih (i + 1) (nextState mrand st) h]

/-- A loop run that ends without a read failure issues reads of size rs
throughout. -/
theorem runLoop_none_sizes (env : Env) (mrand : Bool) (rs mo : Nat) :
    ∀ fuel i st : Nat, (runLoop env mrand rs mo fuel i st).2 = none →
      (runLoop env mrand rs mo fuel i st).1.map Prod.snd = List.replicate fuel rs := by
  intro fuel
  induction fuel with
  | zero => intro i st _; simp [runLoop]
  | succ n ih =>
    intro i st h
    by_cases hc : env.pread i (loopOffset mrand rs mo i (nextState mrand st)) rs < 0
    · rw [runLoop_succ_pos env mrand rs mo n i st hc] at h
      simp at h
    · rw [runLoop_succ_neg env mrand rs mo n i st hc] at h ⊢
      simp only [List.map_cons, List.replicate_succ]
      rw [ih (i + 1) (nextState mrand st) h]

/-- Two complete loop runs over possibly different environments issue the
same reads: the read sequence is a function of the mode, the plan, the
loop index and the pseudo-random state alone. -/
theorem runLoop_agree (env1 env2 : Env) (mrand : Bool) (rs mo : Nat) :
    ∀ fuel i st : Nat,
      (runLoop env1 mrand rs mo fuel i st).2 = none →
      (runLoop env2 mrand rs mo fuel i st).2 = none →
      (runLoop env1 mrand rs mo fuel i st).1 = (runLoop env2 mrand rs mo fuel i st).1 := by
  intro fuel
  induction fuel with
  | zero => intro i st _ _; rfl
  | succ n ih =>
    intro i st h1 h2
    by_cases hc1 : env1.pread i (loopOffset mrand rs mo i (nextState mrand st)) rs < 0
    · rw [runLoop_succ_pos env1 mrand rs mo n i st hc1] at h1
      simp at h1
    · by_cases hc2 : env2.pread i (loopOffset mrand rs mo i (nextState mrand st)) rs < 0
      · rw [runLoop_succ_pos env2 mrand rs mo n i st hc2] at h2
        simp at h2
      · rw [runLoop_succ_neg env1 mrand rs mo n i st hc1] at h1 ⊢
        rw [runLoop_succ_neg env2 mrand rs mo n i st hc2] at h2 ⊢
        simp only [List.cons.injEq, true_and]
        exact ih (i + 1) (nextState mrand st) h1 h2

/-- Specialisation of runLoop_succ_pos to sequential mode, with the
offset and state expressions normalised. -/
theorem runLoop_seq_succ_pos (env : Env) (rs mo fuel i st : Nat)
    (hc : env.pread i (i % block_count mo rs * rs) rs < 0) :
    runLoop env false rs mo (fuel + 1) i st =
      ([(i % block_count mo rs * rs, rs)],
        some (Diag.preadFailed (i % block_count mo rs * rs) rs)) :=
  runLoop_succ_pos env false rs mo fuel i st hc

/-- Specialisation of runLoop_succ_neg to sequential mode, with the
offset and state expressions normalised. -/
theorem runLoop_seq_succ_neg (env : Env) (rs mo fuel i st : Nat)
    (hc : ¬ env.pread i (i % block_count mo rs * rs) rs < 0) :
    runLoop env false rs mo (fuel + 1) i st =
      ((i % block_count mo rs * rs, rs) :: (runLoop env false rs mo fuel (i + 1) st).1,
        (runLoop env false rs mo fuel (i + 1) st).2) :=
  runLoop_succ_neg env false rs mo fuel i st hc

/-- In sequential mode the loop result does not depend on the
pseudo-random state at all. -/
theorem runLoop_seq_state (env : Env) (rs mo : Nat) :
    ∀ fuel i st1 st2 : Nat,
      runLoop env false rs mo fuel i st1 = runLoop env false rs mo fuel i st2 := by
  intro fuel
  induction fuel with
  | zero => intro i st1 st2; rfl
  | succ n ih =>
    intro i st1 st2
    by_cases hc : env.pread i (i % block_count mo rs * rs) rs < 0
    · rw [runLoop_seq_succ_pos env rs mo n i st1 hc,
        runLoop_seq_succ_pos env rs mo n i st2 hc]
    · rw [runLoop_seq_succ_neg env rs mo n i st1 hc,
        runLoop_seq_succ_neg env rs mo n i st2 hc,
        ih (i + 1) st1 st2]

/-- In sequential mode a complete loop run starting at index i issues the
offsets ((i + k) mod block_count) * record_size for k = 0 .. fuel - 1. -/
theorem runLoop_seq_map (env : Env) (rs mo : Nat) :
    ∀ fuel i st : Nat, (runLoop env false rs mo fuel i st).2 = none →
      (runLoop env false rs mo fuel i st).1.map Prod.fst =
        (List.range fuel).map (fun k => (i + k) % block_count mo rs * rs) := by
  intro fuel
  induction fuel with
  | zero => intro i st _; simp [runLoop]
  | succ n ih =>
    intro i st h
    by_cases hc : env.pread i (i % block_count mo rs * rs) rs < 0
    · rw [runLoop_seq_succ_pos env rs mo n i st hc] at h
      simp at h
    · rw [runLoop_seq_succ_neg env rs mo n i st hc] at h ⊢
      simp only [List.map_cons]
      rw [ih (i + 1) st h, List.range_succ_eq_map, List.map_cons, List.map_map]
      have h0 : (i + 0) % block_count mo rs * rs = i % block_count mo rs * rs := by
        rw [Nat.add_zero]
      rw [h0]
      have hfun : ((fun k => (i + k) % block_count mo rs * rs) ∘ Nat.succ) =
          fun k => (i + 1 + k) % block_count mo rs * rs := by
        funext k
        show (i + Nat.succ k) % block_count mo rs * rs = (i + 1 + k) % block_count mo rs * rs
        have hik : i + Nat.succ k = i + 1 + k := by omega
        rw [hik]
      rw [hfun]

/-! ### Helper lemmas about the rest of main -/

theorem finish_reads (r : List (Nat × Nat) × Option Diag) : (finish r).reads = r.1 := by
  rcases r with ⟨l, o⟩
  cases o <;> rfl

theorem finish_stdout (r : List (Nat × Nat) × Option Diag) : (finish r).stdout = [] := by
  rcases r with ⟨l, o⟩
  cases o <;> rfl

/-- If op_count is nonzero then the record size fits in the working set. -/
theorem rs_le_of_op_count_ne (tb rs : Nat) (h : op_count tb rs ≠ 0) : rs ≤ tb := by
  by_contra hlt
  push_neg at hlt
  exact h (Nat.div_eq_of_lt hlt)

/-- The key planning identity: for a valid plan the number of distinct
block positions equals the number of operations. -/
theorem block_count_eq_op_count (rs tb : Nat) (h0 : 0 < rs) (h : rs ≤ tb) :
    block_count (tb - rs) rs = op_count tb rs := by
  unfold block_count op_count
  conv_rhs => rw [← Nat.sub_add_cancel h]
  rw [Nat.add_div_right _ h0]

/-- Every run either stops before the workload loop (issuing no reads,
exiting 1, with a diagnostic on stderr and nothing on stdout), or passes
every validation and planning check and ends as the finish of the
workload loop. -/
theorem runBench_shape (cfg : Config) (env : Env) :
    ((runBench cfg env).reads = [] ∧ (runBench cfg env).exit = 1 ∧
      (runBench cfg env).stdout = [] ∧ (runBench cfg env).stderr ≠ []) ∨
    (cfg.record_size ≠ 0 ∧ 0 < cfg.total_bytes ∧
      op_count cfg.total_bytes.toNat cfg.record_size ≠ 0 ∧
      runBench cfg env =
        finish (runLoop env (cfg.mode == some "rand") cfg.record_size
          (cfg.total_bytes.toNat - cfg.record_size)
          (op_count cfg.total_bytes.toNat cfg.record_size) 0 cfg.seed)) := by
  unfold runBench
  by_cases h1 : cfg.file_path = none ∨ cfg.mode = none ∨ cfg.record_size = 0 ∨
      cfg.total_bytes ≤ 0
  · rw [if_pos h1]; exact Or.inl ⟨rfl, rfl, rfl, by simp⟩
  rw [if_neg h1]
  by_cases h2 : ¬(cfg.mode = some "rand" ∨ cfg.mode = some "seq")
  · rw [if_pos h2]; exact Or.inl ⟨rfl, rfl, rfl, by simp⟩
  rw [if_neg h2]
  by_cases h3 : env.openOk = false
  · rw [if_pos h3]; exact Or.inl ⟨rfl, rfl, rfl, by simp⟩
  rw [if_neg h3]
  by_cases h4 : env.statOk = false
  · rw [if_pos h4]; exact Or.inl ⟨rfl, rfl, rfl, by simp⟩
  rw [if_neg h4]
  by_cases h5 : env.file_size ≤ 0
  · rw [if_pos h5]; exact Or.inl ⟨rfl, rfl, rfl, by simp⟩
  rw [if_neg h5]
  by_cases h6 : env.file_size < cfg.total_bytes
  · rw [if_pos h6]; exact Or.inl ⟨rfl, rfl, rfl, by simp⟩
  rw [if_neg h6]
  by_cases h7 : op_count cfg.total_bytes.toNat cfg.record_size = 0
  · rw [if_pos h7]; exact Or.inl ⟨rfl, rfl, rfl, by simp⟩
  rw [if_neg h7]
  by_cases h8 : env.mallocOk = false
  · rw [if_pos h8]; exact Or.inl ⟨rfl, rfl, rfl, by simp⟩
  rw [if_neg h8]
  push_neg at h1
  exact Or.inr ⟨h1.2.2.1, h1.2.2.2, h7, rfl⟩

/-- Characterisation of a successful run: the configuration passed every
check, the loop completed with no read failure, and the outcome is the
silent success outcome carrying the loop reads. -/
theorem runBench_success (cfg : Config) (env : Env)
    (h : (runBench cfg env).exit = 0) :
    cfg.record_size ≠ 0 ∧ 0 < cfg.total_bytes ∧
      op_count cfg.total_bytes.toNat cfg.record_size ≠ 0 ∧
      (runLoop env (cfg.mode == some "rand") cfg.record_size
        (cfg.total_bytes.toNat - cfg.record_size)
        (op_count cfg.total_bytes.toNat cfg.record_size) 0 cfg.seed).2 = none ∧
      runBench cfg env =
        ⟨0, [], [],
          (runLoop env (cfg.mode == some "rand") cfg.record_size
            (cfg.total_bytes.toNat - cfg.record_size)
            (op_count cfg.total_bytes.toNat cfg.record_size) 0 cfg.seed).1, true⟩ := by
  rcases runBench_shape cfg env with ⟨_, he, _, _⟩ | ⟨hrs, htb, hops, heq⟩
  · rw [he] at h; exact absurd h one_ne_zero
  · rcases hE : (runLoop env (cfg.mode == some "rand") cfg.record_size
        (cfg.total_bytes.toNat - cfg.record_size)
        (op_count cfg.total_bytes.toNat cfg.record_size) 0 cfg.seed) with ⟨l, o⟩
    rw [hE] at heq
    cases o with
    | some d =>
      rw [heq] at h
      exact absurd h one_ne_zero
    | none => exact ⟨hrs, htb, hops, rfl, by rw [heq]; rfl⟩

/-! ### Helper lemmas about argument parsing -/

theorem fs_bench_ok (argv : List String) (env : Env) (cfg : Config)
    (hp : parseArgs argv initConfig = Except.ok cfg) :
    fs_bench argv env = runBench cfg env := by
  unfold fs_bench
  rw [hp]

theorem fs_bench_err (argv : List String) (env : Env) (a : String)
    (hp : parseArgs argv initConfig = Except.error a) :
    fs_bench argv env = ⟨1, [], [Diag.unknownArg a, Diag.usage], [], false⟩ := by
  unfold fs_bench
  rw [hp]

/-- A well-formed argument prefix is consumed completely, so parsing a
longer command line continues from the configuration it produced. -/
theorem parseArgs_append : ∀ (pre : List String) (cfg cfg2 : Config),
    parseArgs pre cfg = Except.ok cfg2 →
    ∀ xs, parseArgs (pre ++ xs) cfg = parseArgs xs cfg2
  | [], cfg, cfg2, h, xs => by
    simp only [parseArgs, Except.ok.injEq] at h
    rw [List.nil_append, h]
  | [a], cfg, cfg2, h, xs => by
    simp only [parseArgs] at h
    exact absurd h (by simp)
  | a :: v :: rest, cfg, cfg2, h, xs => by
    simp only [parseArgs, List.cons_append] at h ⊢
    by_cases h1 : a = "--file"
    · rw [if_pos h1] at h ⊢
      exact parseArgs_append rest _ cfg2 h xs
    rw [if_neg h1] at h ⊢
    by_cases h2 : a = "--mode"
    · rw [if_pos h2] at h ⊢
      exact parseArgs_append rest _ cfg2 h xs
    rw [if_neg h2] at h ⊢
    by_cases h3 : a = "--record-size"
    · rw [if_pos h3] at h ⊢
      exact parseArgs_append rest _ cfg2 h xs
    rw [if_neg h3] at h ⊢
    by_cases h4 : a = "--total-bytes"
    · rw [if_pos h4] at h ⊢
      exact parseArgs_append rest _ cfg2 h xs
    rw [if_neg h4] at h ⊢
    by_cases h5 : a = "--seed"
    · rw [if_pos h5] at h ⊢
      exact parseArgs_append rest _ cfg2 h xs
    rw [if_neg h5] at h ⊢
    exact absurd h (by simp)

/-- A recognised flag in last position, or any argument alone, is
rejected by the parser and reported as is. -/
theorem parseArgs_last (a : String) (cfg : Config) :
    parseArgs [a] cfg = Except.error a := rfl

/-- An argument in flag position that is not one of the five recognised
flags is rejected by the parser and reported as is. -/
theorem parseArgs_unrecognized (a : String) (rest : List String) (cfg : Config)
    (h : a ∉ recognizedFlags) : parseArgs (a :: rest) cfg = Except.error a := by
  simp only [recognizedFlags, List.mem_cons, List.mem_singleton, not_or] at h
  obtain ⟨n1, n2, n3, n4, n5⟩ := h
  cases rest with
  | nil => exact parseArgs_last a cfg
  | cons v rest2 =>
    simp only [parseArgs]
    rw [if_neg n1, if_neg n2, if_neg n3, if_neg n4, if_neg n5.1]

/-! ### Claims -/

/-- Claim C1: in every run, in either mode, every offset passed to a
positioned read is non-negative, at most total_bytes - record_size and a
multiple of record_size, and the read of record_size bytes lies entirely
within [0, total_bytes). Offsets are modelled as naturals, so
non-negativity is by construction and stated as 0 le the offset. -/
theorem c1_read_bounds (argv : List String) (env : Env) (cfg : Config) (p : Nat × Nat)
    (hp : parseArgs argv initConfig = Except.ok cfg)
    (hmem : p ∈ (fs_bench argv env).reads) :
    0 ≤ p.1 ∧ p.1 ≤ cfg.total_bytes.toNat - cfg.record_size ∧
      p.1 % cfg.record_size = 0 ∧ p.2 = cfg.record_size ∧
      p.1 + cfg.record_size ≤ cfg.total_bytes.toNat := by
  rw [fs_bench_ok argv env cfg hp] at hmem
  rcases runBench_shape cfg env with ⟨hnil, _, _, _⟩ | ⟨hrs, htb, hops, heq⟩
  · rw [hnil] at hmem
    exact absurd hmem (List.not_mem_nil p)
  · rw [heq, finish_reads] at hmem
    obtain ⟨hsz, hmod, hle⟩ := runLoop_mem env _ cfg.record_size _ _ _ _ p hmem
    have hrle : cfg.record_size ≤ cfg.total_bytes.toNat := rs_le_of_op_count_ne _ _ hops
    have hmole : (cfg.total_bytes.toNat - cfg.record_size) / cfg.record_size *
        cfg.record_size ≤ cfg.total_bytes.toNat - cfg.record_size :=
      Nat.div_mul_le_self _ _
    exact ⟨Nat.zero_le _, le_trans hle hmole, hmod, hsz, by omega⟩

theorem c1_read_bounds_witness :
    0 ≤ ((4, 4) : Nat × Nat).1 ∧
      ((4, 4) : Nat × Nat).1 ≤ cfgSeq.total_bytes.toNat - cfgSeq.record_size ∧
      ((4, 4) : Nat × Nat).1 % cfgSeq.record_size = 0 ∧
      ((4, 4) : Nat × Nat).2 = cfgSeq.record_size ∧
      ((4, 4) : Nat × Nat).1 + cfgSeq.record_size ≤ cfgSeq.total_bytes.toNat :=
  c1_read_bounds argvSeq envOK cfgSeq (4, 4) (by decide) (by decide)

/-- Claim C2: a run in which every validation and planning check passes
and no read fails issues exactly op_count reads, where op_count is
total_bytes div record_size, and each read has size record_size. -/
theorem c2_op_count (argv : List String) (env : Env) (cfg : Config)
    (hp : parseArgs argv initConfig = Except.ok cfg)
    (h0 : (fs_bench argv env).exit = 0) :
    (fs_bench argv env).reads.length = op_count cfg.total_bytes.toNat cfg.record_size ∧
      (fs_bench argv env).reads.map Prod.snd =
        List.replicate (op_count cfg.total_bytes.toNat cfg.record_size) cfg.record_size := by
  rw [fs_bench_ok argv env cfg hp] at h0 ⊢
  obtain ⟨hrs, htb, hops, hnone, heq⟩ := runBench_success cfg env h0
  rw [heq]
  exact ⟨runLoop_none_length _ _ _ _ _ _ _ hnone, runLoop_none_sizes _ _ _ _ _ _ _ hnone⟩

theorem c2_op_count_witness :
    (fs_bench argvSeq envOK).reads.length = op_count cfgSeq.total_bytes.toNat cfgSeq.record_size ∧
      (fs_bench argvSeq envOK).reads.map Prod.snd =
        List.replicate (op_count cfgSeq.total_bytes.toNat cfgSeq.record_size)
          cfgSeq.record_size :=
  c2_op_count argvSeq envOK cfgSeq (by decide) (by decide)

/-- Claim C4: in random mode, two runs with identical seed, record size
and total bytes (hence identical op_count), in possibly different
environments, that both complete successfully, issue identical read
sequences: the offsets are a deterministic function of the seed and the
plan, because the pseudo-random source is seeded exactly once before the
loop and then advanced only by the loop itself. -/
theorem c4_rand_reproducible (cfg1 cfg2 : Config) (env1 env2 : Env)
    (hseed : cfg1.seed = cfg2.seed) (hrs : cfg1.record_size = cfg2.record_size)
    (htb : cfg1.total_bytes = cfg2.total_bytes)
    (hm1 : cfg1.mode = some "rand") (hm2 : cfg2.mode = some "rand")
    (h1 : (runBench cfg1 env1).exit = 0) (h2 : (runBench cfg2 env2).exit = 0) :
    (runBench cfg1 env1).reads = (runBench cfg2 env2).reads := by
  have hb1 : (cfg1.mode == some "rand") = true := by rw [hm1]; rfl
  have hb2 : (cfg2.mode == some "rand") = true := by rw [hm2]; rfl
  obtain ⟨_, _, _, hn1, he1⟩ := runBench_success cfg1 env1 h1
  obtain ⟨_, _, _, hn2, he2⟩ := runBench_success cfg2 env2 h2
  rw [hb1] at hn1 he1
  rw [hb2] at hn2 he2
  rw [← hseed, ← hrs, ← htb] at hn2 he2
  have hr1 : (runBench cfg1 env1).reads =
      (runLoop env1 true cfg1.record_size (cfg1.total_bytes.toNat - cfg1.record_size)
        (op_count cfg1.total_bytes.toNat cfg1.record_size) 0 cfg1.seed).1 := by
    rw [he1]
  have hr2 : (runBench cfg2 env2).reads =
      (runLoop env2 true cfg1.record_size (cfg1.total_bytes.toNat - cfg1.record_size)
        (op_count cfg1.total_bytes.toNat cfg1.record_size) 0 cfg1.seed).1 := by
    rw [he2]
  rw [hr1, hr2]
  exact runLoop_agree env1 env2 true _ _ _ _ _ hn1 hn2

theorem c4_rand_reproducible_witness :
    (runBench cfgRand envOK).reads = (runBench cfgRand envOK2).reads :=
  c4_rand_reproducible cfgRand cfgRand envOK envOK2 rfl rfl rfl rfl rfl
    (by decide) (by decide)

set_option maxHeartbeats 1000000 in
/-- Claim C3: in sequential mode, in a successful run, the i-th issued
offset is (i mod block_count) * record_size with block_count computed
from max_offset = total_bytes - record_size, and the behaviour of the
run is independent of the seed value. -/
theorem c3_seq_pattern (argv : List String) (env : Env) (cfg : Config) (s1 s2 : Nat)
    (hp : parseArgs argv initConfig = Except.ok cfg)
    (hm : cfg.mode = some "seq")
    (h0 : (fs_bench argv env).exit = 0) :
    (fs_bench argv env).reads.map Prod.fst =
      (List.range (op_count cfg.total_bytes.toNat cfg.record_size)).map
        (fun i => i % block_count (cfg.total_bytes.toNat - cfg.record_size)
          cfg.record_size * cfg.record_size) ∧
    runBench { cfg with seed := s1 } env = runBench { cfg with seed := s2 } env := by
  have hb : (cfg.mode == some "rand") = false := by rw [hm]; rfl
  rw [fs_bench_ok argv env cfg hp] at h0 ⊢
  obtain ⟨hrs, htb, hops, hnone, heq⟩ := runBench_success cfg env h0
  rw [hb] at hnone heq
  constructor
  · have hreads : (runBench cfg env).reads =
        (runLoop env false cfg.record_size (cfg.total_bytes.toNat - cfg.record_size)
          (op_count cfg.total_bytes.toNat cfg.record_size) 0 cfg.seed).1 := by
      rw [heq]
    rw [hreads, runLoop_seq_map env cfg.record_size _ _ 0 cfg.seed hnone]
    simp only [Nat.zero_add]
  · have hfb : ((some "seq" : Option String) == some "rand") = false := by decide
    unfold runBench
    simp only [hm, hfb]
    split_ifs <;>
      first
        | rfl
        | exact congrArg finish (runLoop_seq_state env _ _ _ _ s1 s2)

theorem c3_seq_pattern_witness :
    (fs_bench argvSeq envOK).reads.map Prod.fst =
      (List.range (op_count cfgSeq.total_bytes.toNat cfgSeq.record_size)).map
        (fun i => i % block_count (cfgSeq.total_bytes.toNat - cfgSeq.record_size)
          cfgSeq.record_size * cfgSeq.record_size) ∧
    runBench { cfgSeq with seed := 1 } envOK = runBench { cfgSeq with seed := 2 } envOK :=
  c3_seq_pattern argvSeq envOK cfgSeq 1 2 (by decide) rfl (by decide)

/-- Claim C9: for the plan of a successful sequential run, block_count
equals op_count, and the run issues each of the block_count distinct
block-aligned offsets exactly once, in strictly increasing order with no
wrap-around: the offsets are exactly 0, record_size, ...,
(op_count - 1) * record_size in that order. -/
theorem c9_seq_coverage (argv : List String) (env : Env) (cfg : Config)
    (hp : parseArgs argv initConfig = Except.ok cfg)
    (hm : cfg.mode = some "seq")
    (h0 : (fs_bench argv env).exit = 0) :
    block_count (cfg.total_bytes.toNat - cfg.record_size) cfg.record_size =
      op_count cfg.total_bytes.toNat cfg.record_size ∧
    (fs_bench argv env).reads.map Prod.fst =
      (List.range (op_count cfg.total_bytes.toNat cfg.record_size)).map
        (fun i => i * cfg.record_size) ∧
    ((fs_bench argv env).reads.map Prod.fst).Pairwise (fun a b => a < b) := by
  have hb : (cfg.mode == some "rand") = false := by rw [hm]; rfl
  rw [fs_bench_ok argv env cfg hp] at h0 ⊢
  obtain ⟨hrs, htb, hops, hnone, heq⟩ := runBench_success cfg env h0
  rw [hb] at hnone heq
  have hrs0 : 0 < cfg.record_size := Nat.pos_of_ne_zero hrs
  have hrle : cfg.record_size ≤ cfg.total_bytes.toNat := rs_le_of_op_count_ne _ _ hops
  have hbc : block_count (cfg.total_bytes.toNat - cfg.record_size) cfg.record_size =
      op_count cfg.total_bytes.toNat cfg.record_size :=
    block_count_eq_op_count _ _ hrs0 hrle
  have hreads : (runBench cfg env).reads =
      (runLoop env false cfg.record_size (cfg.total_bytes.toNat - cfg.record_size)
        (op_count cfg.total_bytes.toNat cfg.record_size) 0 cfg.seed).1 := by
    rw [heq]
  have hmap2 : (runBench cfg env).reads.map Prod.fst =
      (List.range (op_count cfg.total_bytes.toNat cfg.record_size)).map
        (fun i => i * cfg.record_size) := by
    rw [hreads, runLoop_seq_map env cfg.record_size _ _ 0 cfg.seed hnone]
    apply List.map_congr_left
    intro k hk
    rw [Nat.zero_add, hbc, Nat.mod_eq_of_lt (List.mem_range.mp hk)]
  refine ⟨hbc, hmap2, ?_⟩
  rw [hmap2]
  exact (List.pairwise_lt_range _).map _
    (fun a b hab => (mul_lt_mul_right hrs0).mpr hab)

theorem c9_seq_coverage_witness :
    block_count (cfgSeq.total_bytes.toNat - cfgSeq.record_size) cfgSeq.record_size =
      op_count cfgSeq.total_bytes.toNat cfgSeq.record_size ∧
    (fs_bench argvSeq envOK).reads.map Prod.fst =
      (List.range (op_count cfgSeq.total_bytes.toNat cfgSeq.record_size)).map
        (fun i => i * cfgSeq.record_size) ∧
    ((fs_bench argvSeq envOK).reads.map Prod.fst).Pairwise (fun a b => a < b) :=
  c9_seq_coverage argvSeq envOK cfgSeq (by decide) rfl (by decide)

/-- Claim C5 counterexample: with a valid configuration whose working
set is 1 byte and an empty target file, the actual file size (0) is
strictly less than total_bytes (1), yet the run fails with the
non-positive-size diagnostic of fs_bench.c line 100, not with the
FileTooSmall diagnostic of line 106. -/
theorem c5_counterexample :
    (Env.file_size ⟨true, true, 0, fun _ _ _ => 0, true⟩ <
      Config.total_bytes ⟨some "f", some "seq", 4, 1, 12345⟩) ∧
    (runBench ⟨some "f", some "seq", 4, 1, 12345⟩
        ⟨true, true, 0, fun _ _ _ => 0, true⟩).stderr = [Diag.nonPositiveSize 0] ∧
    [Diag.nonPositiveSize 0] ≠ [Diag.fileTooSmall 0 1] := by
  refine ⟨by decide, by decide, by decide⟩

/-- Claim C5 as amended: if the file opens and stats successfully, its
size is positive, and that size is strictly less than total_bytes, then
the run fails with the FileTooSmall diagnostic, exit code 1, before any
read is attempted; when the file size is zero or negative the run also
fails before any read, but with the non-positive-size diagnostic
instead. The amended theorem states the positive-size case. -/
theorem c5_file_too_small (cfg : Config) (env : Env)
    (hfp : cfg.file_path ≠ none)
    (hmo : cfg.mode = some "rand" ∨ cfg.mode = some "seq")
    (hrs : cfg.record_size ≠ 0)
    (ho : env.openOk = true) (hs : env.statOk = true)
    (hpos : 0 < env.file_size) (hlt : env.file_size < cfg.total_bytes) :
    runBench cfg env =
      ⟨1, [], [Diag.fileTooSmall env.file_size cfg.total_bytes], [], true⟩ := by
  have hmn : cfg.mode ≠ none := by
    rcases hmo with h | h <;> rw [h] <;> exact Option.some_ne_none _
  have htb : ¬ cfg.total_bytes ≤ 0 := by omega
  unfold runBench
  rw [if_neg (by push_neg; exact ⟨hfp, hmn, hrs, by omega⟩),
    if_neg (not_not_intro hmo),
    if_neg (by simp [ho]),
    if_neg (by simp [hs]),
    if_neg (not_le.mpr hpos),
    if_pos hlt]

theorem c5_file_too_small_witness :
    runBench ⟨some "f", some "seq", 4, 16, 12345⟩ ⟨true, true, 8, fun _ _ _ => 0, true⟩ =
      ⟨1, [],
        [Diag.fileTooSmall (Env.file_size ⟨true, true, 8, fun _ _ _ => 0, true⟩)
          (Config.total_bytes ⟨some "f", some "seq", 4, 16, 12345⟩)], [], true⟩ :=
  c5_file_too_small ⟨some "f", some "seq", 4, 16, 12345⟩ ⟨true, true, 8, fun _ _ _ => 0, true⟩
    (by decide) (Or.inr rfl) (by decide) rfl rfl (by decide) (by decide)

/-- Claim C6: if record_size exceeds total_bytes (so op_count computed by
integer division is zero) in a configuration that passes validation
against a large enough file, the run fails with the degenerate-workload
diagnostic of fs_bench.c line 115, exit code 1, and issues no reads: the
only file operations are the open and the stat. -/
theorem c6_degenerate (cfg : Config) (env : Env)
    (hfp : cfg.file_path ≠ none)
    (hmo : cfg.mode = some "rand" ∨ cfg.mode = some "seq")
    (htb : 0 < cfg.total_bytes)
    (hgt : cfg.total_bytes < (cfg.record_size : Int))
    (ho : env.openOk = true) (hs : env.statOk = true)
    (hge : cfg.total_bytes ≤ env.file_size) :
    runBench cfg env =
      ⟨1, [], [Diag.degenerate cfg.total_bytes cfg.record_size], [], true⟩ := by
  have hmn : cfg.mode ≠ none := by
    rcases hmo with h | h <;> rw [h] <;> exact Option.some_ne_none _
  have hrs : cfg.record_size ≠ 0 := by
    intro h
    rw [h] at hgt
    omega
  have htb2 : ¬ cfg.total_bytes ≤ 0 := by omega
  have hpos : ¬ env.file_size ≤ 0 := by omega
  have hops : op_count cfg.total_bytes.toNat cfg.record_size = 0 := by
    apply Nat.div_eq_of_lt
    omega
  unfold runBench
  rw [if_neg (by push_neg; exact ⟨hfp, hmn, hrs, by omega⟩),
    if_neg (not_not_intro hmo),
    if_neg (by simp [ho]),
    if_neg (by simp [hs]),
    if_neg hpos,
    if_neg (not_lt.mpr hge),
    if_pos hops]

theorem c6_degenerate_witness :
    runBench ⟨some "f", some "rand", 16, 8, 12345⟩ ⟨true, true, 64, fun _ _ _ => 0, true⟩ =
      ⟨1, [],
        [Diag.degenerate (Config.total_bytes ⟨some "f", some "rand", 16, 8, 12345⟩)
          (Config.record_size ⟨some "f", some "rand", 16, 8, 12345⟩)], [], true⟩ :=
  c6_degenerate ⟨some "f", some "rand", 16, 8, 12345⟩ ⟨true, true, 64, fun _ _ _ => 0, true⟩
    (by decide) (Or.inl rfl) (by decide) (by decide) rfl rfl (by decide)

/-- Claim C7 counterexample: a command line with a record size of 0
produces exactly the same stderr as the command line with the
record-size flag missing altogether: the generic missing-arguments
diagnostic followed by the usage text, with no distinct
invalid-record-size diagnostic. -/
theorem c7_counterexample :
    (fs_bench ["--file", "f", "--mode", "seq", "--record-size", "0", "--total-bytes", "10"]
        envOK).stderr =
      (fs_bench ["--file", "f", "--mode", "seq", "--total-bytes", "10"] envOK).stderr ∧
    (fs_bench ["--file", "f", "--mode", "seq", "--record-size", "0", "--total-bytes", "10"]
        envOK).stderr = [Diag.missingRequired, Diag.usage] := by
  refine ⟨by decide, by decide⟩

/-- Claim C7 as amended: a record-size argument that is zero or does not
parse as a positive integer leaves record_size at 0, so the run fails
with the same missing-required-arguments diagnostic that a missing field
produces (not a distinct invalid-record-size class), emits the usage
message to stderr, exits with status 1, and never opens the file. -/
theorem c7_zero_record_size (argv : List String) (env : Env) (cfg : Config)
    (hp : parseArgs argv initConfig = Except.ok cfg)
    (hz : cfg.record_size = 0) :
    fs_bench argv env = ⟨1, [], [Diag.missingRequired, Diag.usage], [], false⟩ := by
  rw [fs_bench_ok argv env cfg hp]
  unfold runBench
  rw [if_pos (Or.inr (Or.inr (Or.inl hz)))]

theorem c7_zero_record_size_witness :
    fs_bench ["--file", "f", "--mode", "seq", "--record-size", "xyz", "--total-bytes", "10"]
        envOK =
      ⟨1, [], [Diag.missingRequired, Diag.usage], [], false⟩ :=
  c7_zero_record_size
    ["--file", "f", "--mode", "seq", "--record-size", "xyz", "--total-bytes", "10"]
    envOK ⟨some "f", some "seq", 0, 10, 12345⟩ (by decide) rfl

/-- Claim C8: every run writes nothing to stdout, and either exits with
status 0 and an empty error stream (full successful completion) or exits
with status 1 and a diagnostic on the error stream. -/
theorem c8_exit_contract (argv : List String) (env : Env) :
    (fs_bench argv env).stdout = [] ∧
      (((fs_bench argv env).exit = 0 ∧ (fs_bench argv env).stderr = []) ∨
        ((fs_bench argv env).exit = 1 ∧ (fs_bench argv env).stderr ≠ [])) := by
  rcases hpp : parseArgs argv initConfig with a | cfg
  · rw [fs_bench_err argv env a hpp]
    exact ⟨rfl, Or.inr ⟨rfl, by simp⟩⟩
  · rw [fs_bench_ok argv env cfg hpp]
    rcases runBench_shape cfg env with ⟨_, he, ho, hs⟩ | ⟨_, _, _, heq⟩
    · exact ⟨ho, Or.inr ⟨he, hs⟩⟩
    · rw [heq]
      rcases hE : runLoop env (cfg.mode == some "rand") cfg.record_size
          (cfg.total_bytes.toNat - cfg.record_size)
          (op_count cfg.total_bytes.toNat cfg.record_size) 0 cfg.seed with ⟨l, o⟩
      cases o with
      | some d => exact ⟨rfl, Or.inr ⟨rfl, by simp [finish]⟩⟩
      | none => exact ⟨rfl, Or.inl ⟨rfl, rfl⟩⟩

/-- Claim C10: any command line in which, after a well-parsed prefix, the
next argument either is not one of the five recognised flags or is the
final argument (a flag with no value after it), makes the program print
the offending argument and the usage message to stderr and exit with
status 1 without ever opening the target file. -/
theorem c10_arg_error (pre : List String) (cfg : Config) (env : Env) (a : String)
    (rest : List String)
    (hpre : parseArgs pre initConfig = Except.ok cfg)
    (hbad : a ∉ recognizedFlags ∨ rest = []) :
    fs_bench (pre ++ a :: rest) env =
      ⟨1, [], [Diag.unknownArg a, Diag.usage], [], false⟩ := by
  have herr : parseArgs (pre ++ a :: rest) initConfig = Except.error a := by
    rw [parseArgs_append pre initConfig cfg hpre (a :: rest)]
    rcases hbad with hb | hb
    · exact parseArgs_unrecognized a rest cfg hb
    · rw [hb]
      exact parseArgs_last a cfg
  exact fs_bench_err _ env a herr

theorem c10_arg_error_witness :
    fs_bench (["--file", "f"] ++ "--verbose" :: ["1"]) envOK =
      ⟨1, [], [Diag.unknownArg "--verbose", Diag.usage], [], false⟩ :=
  c10_arg_error ["--file", "f"] ⟨some "f", none, 0, 0, 12345⟩ envOK "--verbose" ["1"]
    (by decide) (Or.inl (by decide))
